import Mathlib

/-!
Verification of the AI test-case generation core of the SmartQA backend
(`api/services/ai_service.py` together with the configuration defaults of
`backend/config.py`).

The development shallowly embeds the data model and the operations of the
`AIService` class: JSON values, the response parser `_parse_response`
(including the behaviour of CPython's `json.loads` on the integer-numeral
subset of JSON and the greedy brace-region regex fallback), the mock
generator `_generate_mock_test_cases`, the provider registry
`get_available_providers`, and the orchestrator `generate_test_cases`.
Network calls of the provider SDKs are modelled by an explicit environment
(`ProviderEnv`), and Python exceptions by `Except String`.
-/

namespace SmartQA

/-- The Python values produced by `json.loads` and passed around the
service: dicts (as association lists in Python insertion order with unique
keys), lists, strings, ints, bools and `None`.  Numbers are restricted to
the integer numerals actually exchanged by this program (the model parser
rejects fraction and exponent parts; floating point is out of scope). -/
inductive PyValue : Type where
  | pdict : List (String × PyValue) → PyValue
  | plist : List PyValue → PyValue
  | pstr : String → PyValue
  | pint : Int → PyValue
  | pbool : Bool → PyValue
  | pnull : PyValue

/-- Python `d[k] = v` on a dict rendered as an insertion-ordered association
list: an existing key keeps its position and gets the new value, a new key is
appended at the end. -/
def setKey : List (String × PyValue) → String → PyValue → List (String × PyValue)
  | [], k, v => [(k, v)]
  | (k', v') :: rest, k, v =>
      if k' == k then (k', v) :: rest else (k', v') :: setKey rest k v

/-- Python `d.get(k)` on a dict rendered as an association list. -/
def lookupKey : List (String × PyValue) → String → Option PyValue
  | [], _ => none
  | (k', v) :: rest, k => if k' == k then some v else lookupKey rest k

/-- Field access `j[k]` on a JSON object (`none` when `j` is not an object or
the key is absent). -/
def getKey (j : PyValue) (k : String) : Option PyValue :=
  match j with
  | .pdict kvs => lookupKey kvs k
  | _ => none

/-- Whitespace characters stripped by Python's `str.strip()` and separating
words for `str.split()` (the ASCII subset; the program never feeds Unicode
whitespace to these helpers). -/
def pyWs (c : Char) : Bool :=
  c == ' ' || ('\x08' < c && c ≤ '\x0d')

/-- Both-ends whitespace trim on character lists (the list-level core of
Python's `str.strip()`). -/
def trimChars (cs : List Char) : List Char :=
  ((cs.dropWhile pyWs).reverse.dropWhile pyWs).reverse

/-- Python `s.strip()`. -/
def pyStrip (s : String) : String := String.mk (trimChars s.data)

/-- Python `s.startswith(pre)`. -/
def startsL (s pre : String) : Bool := pre.data.isPrefixOf s.data

/-- Python `s.endswith(suf)`. -/
def endsL (s suf : String) : Bool := suf.data.isSuffixOf s.data

/-- Python slicing `s[n:]` (by code points). -/
def dropL (s : String) (n : Nat) : String := String.mk (s.data.drop n)

/-- Python slicing `s[:-n]` for `0 < n ≤ len(s)` (by code points). -/
def dropRightL (s : String) (n : Nat) : String :=
  String.mk (s.data.take (s.data.length - n))

/-- Python slicing `s[:n]` (by code points). -/
def takeL (s : String) (n : Nat) : String := String.mk (s.data.take n)

/-- Python `s.split()`: split on runs of whitespace, discarding empty words.
The accumulator holds the current word reversed. -/
def pySplitAux : List Char → List Char → List String
  | [], cur => if cur.isEmpty then [] else [String.mk cur.reverse]
  | c :: cs, cur =>
      if pyWs c then
        if cur.isEmpty then pySplitAux cs []
        else String.mk cur.reverse :: pySplitAux cs []
      else pySplitAux cs (c :: cur)

/-- Python `s.split()` with no arguments. -/
def pySplit (s : String) : List String := pySplitAux s.data []

/-! The model of CPython `json.loads` on the integer-numeral subset of JSON.
Strings support the standard escapes (including `\uXXXX` without surrogate
pairing); unescaped control characters are rejected as in strict mode;
numbers with a fraction or exponent part are rejected (out of scope). -/

/-- Whitespace accepted between JSON tokens by `json.loads`: space, tab,
line feed and carriage return. -/
def jsonWs (c : Char) : Bool :=
  c == '\x20' || c == '\x09' || c == '\x0a' || c == '\x0d'

/-- Value of a hexadecimal digit, if any. -/
def hexVal (c : Char) : Option Nat :=
  if c.isDigit then some (c.toNat - 48)
  else if 'a' ≤ c && c ≤ 'f' then some (c.toNat - 87)
  else if 'A' ≤ c && c ≤ 'F' then some (c.toNat - 55)
  else none

/-- Parse the remainder of a JSON string literal (after the opening quote),
returning the decoded characters and the input past the closing quote. -/
def parseStringBody : List Char → Option (List Char × List Char)
  | [] => none
  | '"' :: rest => some ([], rest)
  | '\\' :: rest =>
      match rest with
      | [] => none
      | 'u' :: h1 :: h2 :: h3 :: h4 :: rest' =>
          match hexVal h1, hexVal h2, hexVal h3, hexVal h4 with
          | some a, some b, some c, some d =>
              match parseStringBody rest' with
              | some (tail, rem) =>
                  some (Char.ofNat (((a * 16 + b) * 16 + c) * 16 + d) :: tail, rem)
              | none => none
          | _, _, _, _ => none
      | e :: rest' =>
          let decoded : Option Char :=
            if e == '"' then some '"'
            else if e == '\\' then some '\\'
            else if e == '/' then some '/'
            else if e == 'b' then some '\x08'
            else if e == 'f' then some '\x0c'
            else if e == 'n' then some '\n'
            else if e == 'r' then some '\r'
            else if e == 't' then some '\t'
            else none
          match decoded with
          | none => none
          | some d =>
              match parseStringBody rest' with
              | some (tail, rem) => some (d :: tail, rem)
              | none => none
  | c :: rest =>
      if c.toNat < 32 then none
      else
        match parseStringBody rest with
        | some (tail, rem) => some (c :: tail, rem)
        | none => none

/-- Numeric value of a digit list (most significant first). -/
def digitsVal (ds : List Char) : Nat :=
  ds.foldl (fun acc c => 10 * acc + (c.toNat - 48)) 0

/-- Parse an unsigned JSON integer numeral: `0`, or a nonzero digit followed
by digits.  A leading zero stops the numeral after the zero, as in CPython's
scanner (the stray digits then fail in the surrounding context). -/
def parseUNum : List Char → Option (Nat × List Char)
  | '0' :: rest => some (0, rest)
  | c :: rest =>
      if c.isDigit then
        some (digitsVal (c :: rest.takeWhile Char.isDigit), rest.dropWhile Char.isDigit)
      else none
  | [] => none

/-- Parse a JSON integer numeral with optional sign. -/
def parseNum : List Char → Option (Int × List Char)
  | '-' :: rest =>
      match parseUNum rest with
      | some (n, r) => some (-(n : Int), r)
      | none => none
  | cs =>
      match parseUNum cs with
      | some (n, r) => some ((n : Int), r)
      | none => none

/-- Fold a parsed member list into a Python dict: later duplicate keys
override earlier values in place. -/
def dedupKeys (kvs : List (String × PyValue)) : List (String × PyValue) :=
  kvs.foldl (fun acc kv => setKey acc kv.1 kv.2) []

mutual

/-- Recursive-descent JSON value parser (fuel-indexed; the fuel passed by
`loads` is ample for every input). -/
def parseValue : Nat → List Char → Option (PyValue × List Char)
  | 0, _ => none
  | Nat.succ fuel, cs =>
      match cs.dropWhile jsonWs with
      | 'n' :: 'u' :: 'l' :: 'l' :: rest => some (.pnull, rest)
      | 't' :: 'r' :: 'u' :: 'e' :: rest => some (.pbool true, rest)
      | 'f' :: 'a' :: 'l' :: 's' :: 'e' :: rest => some (.pbool false, rest)
      | '"' :: rest =>
          match parseStringBody rest with
          | some (content, r) => some (.pstr (String.mk content), r)
          | none => none
      | '[' :: rest =>
          match rest.dropWhile jsonWs with
          | ']' :: r => some (.plist [], r)
          | rest' =>
              match parseItems fuel rest' with
              | some (items, r) => some (.plist items, r)
              | none => none
      | '{' :: rest =>
          match rest.dropWhile jsonWs with
          | '}' :: r => some (.pdict [], r)
          | rest' =>
              match parseMembers fuel rest' with
              | some (kvs, r) => some (.pdict (dedupKeys kvs), r)
              | none => none
      | c :: rest =>
          if c == '-' || c.isDigit then
            match parseNum (c :: rest) with
            | some (n, r) => some (.pint n, r)
            | none => none
          else none
      | [] => none

/-- Comma-separated array items up to the closing bracket. -/
def parseItems : Nat → List Char → Option (List PyValue × List Char)
  | 0, _ => none
  | Nat.succ fuel, cs =>
      match parseValue fuel cs with
      | none => none
      | some (j, rest) =>
          match rest.dropWhile jsonWs with
          | ',' :: r =>
              match parseItems fuel r with
              | some (items, r') => some (j :: items, r')
              | none => none
          | ']' :: r => some ([j], r)
          | _ => none

/-- Comma-separated object members up to the closing brace. -/
def parseMembers : Nat → List Char → Option (List (String × PyValue) × List Char)
  | 0, _ => none
  | Nat.succ fuel, cs =>
      match cs.dropWhile jsonWs with
      | '"' :: rest =>
          match parseStringBody rest with
          | none => none
          | some (key, rest₁) =>
              match rest₁.dropWhile jsonWs with
              | ':' :: rest₂ =>
                  match parseValue fuel rest₂ with
                  | none => none
                  | some (v, rest₃) =>
                      match rest₃.dropWhile jsonWs with
                      | ',' :: r =>
                          match parseMembers fuel r with
                          | some (kvs, r') => some ((String.mk key, v) :: kvs, r')
                          | none => none
                      | '}' :: r => some ([(String.mk key, v)], r)
                      | _ => none
              | _ => none
      | _ => none

end

/-- Model of Python `json.loads`: parse one JSON value and require only
whitespace after it; any failure (a `json.JSONDecodeError`) is `none`. -/
def loads (s : String) : Option PyValue :=
  match parseValue (2 * s.data.length + 2) s.data with
  | some (j, rest) => if (rest.dropWhile jsonWs).isEmpty then some j else none
  | none => none

/-! The response parser `AIService._parse_response`. -/

/-- Suffix of the input starting at its first `'{'`, if any. -/
def dropToOpen : List Char → Option (List Char)
  | [] => none
  | c :: rest => if c == '{' then some (c :: rest) else dropToOpen rest

/-- Suffix of the input starting at its first `'}'`, if any. -/
def dropToClose : List Char → Option (List Char)
  | [] => none
  | c :: rest => if c == '}' then some (c :: rest) else dropToClose rest

/-- The substring matched by `re.search(r'\x7b[\s\S]*\x7d', s)`: from the
first `'{'` of `s` to the last `'}'` after it (greedy match), if both exist. -/
def braceRegion (s : String) : Option String :=
  match dropToOpen s.data with
  | none => none
  | some sfx =>
      match dropToClose sfx.reverse with
      | none => none
      | some revRegion => some (String.mk revRegion.reverse)

/-- Step `if cleaned.startswith('```json'): cleaned = cleaned[7:]`. -/
def stripFenceJson (s : String) : String :=
  if startsL s "```json" then dropL s 7 else s

/-- Step `if cleaned.startswith('```'): cleaned = cleaned[3:]`. -/
def stripFence3 (s : String) : String :=
  if startsL s "```" then dropL s 3 else s

/-- Step `if cleaned.endswith('```'): cleaned = cleaned[:-3]`. -/
def stripFenceEnd (s : String) : String :=
  if endsL s "```" then dropRightL s 3 else s

/-- The fence-stripping and trimming pipeline applied by `_parse_response`
before its first `json.loads` attempt, in the source's sequential order. -/
def cleanedOf (responseText : String) : String :=
  pyStrip (stripFenceEnd (stripFence3 (stripFenceJson (pyStrip responseText))))

/-- Python's `TypeError` message for `result['provider'] = provider` when
`result` is not a dict. -/
def itemAssignmentError (j : PyValue) : String :=
  match j with
  | .plist _ => "list indices must be integers or slices, not str"
  | .pint _ => "'int' object does not support item assignment"
  | .pstr _ => "'str' object does not support item assignment"
  | .pbool _ => "'bool' object does not support item assignment"
  | .pnull => "'NoneType' object does not support item assignment"
  | .pdict _ => ""

/-- The assignment `result['provider'] = provider` performed on each parse
success path: it updates the dict in place, and raises a `TypeError` (not a
`json.JSONDecodeError`, hence uncaught inside `_parse_response`) when the
parsed value is not a dict. -/
def attachProvider (j : PyValue) (provider : String) : Except String PyValue :=
  match j with
  | .pdict kvs => .ok (.pdict (setKey kvs "provider" (.pstr provider)))
  | j => .error (itemAssignmentError j)

/-- The degraded result returned when both parse attempts fail. -/
def errorResult (provider responseText : String) : PyValue :=
  .pdict [("test_cases", .plist []),
        ("error", .pstr "Failed to parse AI response"),
        ("provider", .pstr provider),
        ("raw_response", .pstr (takeL responseText 500))]

/-- Model of `AIService._parse_response`: clean and parse, fall back to the
greedy brace-region regex on the raw text, and finally return the structured
error dict.  An `Except.error` is a propagated Python exception. -/
def parseResponse (responseText provider : String) : Except String PyValue :=
  match loads (cleanedOf responseText) with
  | some result => attachProvider result provider
  | none =>
      match braceRegion responseText with
      | some sub =>
          match loads sub with
          | some result => attachProvider result provider
          | none => .ok (errorResult provider responseText)
      | none => .ok (errorResult provider responseText)

/-- The JSON value recovered by `_parse_response` before the provider tag is
attached: the direct parse of the cleaned text, or else the parse of the
brace region of the raw text. -/
def recoveredJson (raw : String) : Option PyValue :=
  match loads (cleanedOf raw) with
  | some j => some j
  | none => (braceRegion raw).bind loads

/-! The mock generator `AIService._generate_mock_test_cases`. -/

/-- The pseudo module name: `words = requirements.split()[:10];
module_name = words[0] if words else "Feature"`. -/
def mockModuleName (requirements : String) : String :=
  match (pySplit requirements).take 10 with
  | [] => "Feature"
  | w :: _ => w

/-- The five template test cases, as a function of the derived module name
and the project type. -/
def mockCasesTemplate (moduleName projectType : String) : List PyValue :=
  [ .pdict [("test_id", .pstr "TC_001"),
          ("module", .pstr (moduleName ++ " - Core Functionality")),
          ("test_scenario", .pstr "Verify basic functionality works as expected"),
          ("preconditions", .pstr "System is accessible and user is authenticated"),
          ("steps", .pstr "1. Navigate to the feature\n2. Perform the primary action\n3. Verify the result"),
          ("test_data", .pstr "Valid input data"),
          ("expected_result", .pstr "Action completes successfully with expected output"),
          ("actual_result", .pstr ""),
          ("status", .pstr "Pending"),
          ("priority", .pstr "High"),
          ("severity", .pstr "Critical"),
          ("edge_cases", .pstr "Test with minimum and maximum valid inputs")],
    .pdict [("test_id", .pstr "TC_002"),
          ("module", .pstr (moduleName ++ " - Input Validation")),
          ("test_scenario", .pstr "Verify system handles invalid input gracefully"),
          ("preconditions", .pstr "System is accessible"),
          ("steps", .pstr "1. Navigate to the input form\n2. Enter invalid data\n3. Submit the form\n4. Verify error handling"),
          ("test_data", .pstr "Invalid/malformed input data"),
          ("expected_result", .pstr "System displays appropriate error message"),
          ("actual_result", .pstr ""),
          ("status", .pstr "Pending"),
          ("priority", .pstr "High"),
          ("severity", .pstr "Major"),
          ("edge_cases", .pstr "Test with empty inputs, special characters, SQL injection attempts")],
    .pdict [("test_id", .pstr "TC_003"),
          ("module", .pstr (moduleName ++ " - Boundary Testing")),
          ("test_scenario", .pstr "Verify system handles boundary conditions"),
          ("preconditions", .pstr "System is accessible with valid permissions"),
          ("steps", .pstr "1. Test with minimum boundary value\n2. Test with maximum boundary value\n3. Test with values just outside boundaries"),
          ("test_data", .pstr "Boundary values (min, max, min-1, max+1)"),
          ("expected_result", .pstr "System accepts valid boundary values and rejects invalid ones"),
          ("actual_result", .pstr ""),
          ("status", .pstr "Pending"),
          ("priority", .pstr "Medium"),
          ("severity", .pstr "Major"),
          ("edge_cases", .pstr "Consider integer overflow, date boundaries")],
    .pdict [("test_id", .pstr "TC_004"),
          ("module", .pstr (moduleName ++ " - Error Handling")),
          ("test_scenario", .pstr "Verify system error handling and recovery"),
          ("preconditions", .pstr "System is accessible"),
          ("steps", .pstr "1. Simulate error condition\n2. Verify error is logged\n3. Verify user-friendly message displayed\n4. Verify system recovery"),
          ("test_data", .pstr "Conditions that trigger errors"),
          ("expected_result", .pstr "System handles errors gracefully without crashing"),
          ("actual_result", .pstr ""),
          ("status", .pstr "Pending"),
          ("priority", .pstr "Medium"),
          ("severity", .pstr "Major"),
          ("edge_cases", .pstr "Network failures, timeout conditions, server errors")],
    .pdict [("test_id", .pstr "TC_005"),
          ("module", .pstr (moduleName ++ " - " ++ projectType ++ " Specific")),
          ("test_scenario", .pstr ("Verify " ++ projectType ++ "-specific requirements")),
          ("preconditions", .pstr (projectType ++ " environment is properly configured")),
          ("steps", .pstr ("1. Set up " ++ projectType ++ " test environment\n2. Execute " ++ projectType ++ "-specific test\n3. Verify results")),
          ("test_data", .pstr (projectType ++ "-specific test data")),
          ("expected_result", .pstr ("All " ++ projectType ++ "-specific requirements are met")),
          ("actual_result", .pstr ""),
          ("status", .pstr "Pending"),
          ("priority", .pstr "High"),
          ("severity", .pstr "Critical"),
          ("edge_cases", .pstr ("Cross-platform compatibility for " ++ projectType))] ]

/-- The `mock_test_cases` list built by `_generate_mock_test_cases`. -/
def mockTestCases (requirements projectType : String) : List PyValue :=
  mockCasesTemplate (mockModuleName requirements) projectType

/-- The key-value pairs of the dict returned by
`_generate_mock_test_cases`. -/
def mockResultKvs (requirements projectType : String) : List (String × PyValue) :=
  [("test_cases", .plist (mockTestCases requirements projectType)),
   ("summary", .pdict
      [("total_test_cases", .pint ((mockTestCases requirements projectType).length : Int)),
       ("high_priority", .pint 3),
       ("medium_priority", .pint 2),
       ("low_priority", .pint 0)]),
   ("provider", .pstr "mock"),
   ("note", .pstr "Demo mode - Configure an AI provider API key for real test case generation")]

/-- Model of `AIService._generate_mock_test_cases`. -/
def generateMockTestCases (requirements projectType : String) : PyValue :=
  .pdict (mockResultKvs requirements projectType)

/-! Configuration, provider registry and orchestrator. -/

/-- The provider-relevant fields of `backend/config.py`'s `Config` class.
Every API key defaults to the empty string when the environment variable is
unset; `DEFAULT_AI_PROVIDER` defaults to `"openrouter"`. -/
structure Config : Type where
  openrouterApiKey : String
  googleApiKey : String
  groqApiKey : String
  togetherApiKey : String
  anthropicApiKey : String
  defaultAiProvider : String

/-- Python truthiness of an API-key string: configured means non-empty. -/
def keyPresent (k : String) : Bool := !(k == "")

/-- The runtime state of an `AIService` instance: its configuration plus the
three lazily constructed SDK clients (`gemini_client`, `groq_client`,
`anthropic_client`), each either constructed or `None`. -/
structure AIService : Type where
  config : Config
  geminiClient : Bool
  groqClient : Bool
  anthropicClient : Bool

/-- Model of `AIService.__init__` on the path where every configured SDK
imports and initializes without raising: each client is constructed exactly
when its API key is configured. -/
def mkAIService (config : Config) : AIService :=
  ⟨config, keyPresent config.googleApiKey, keyPresent config.groqApiKey,
   keyPresent config.anthropicApiKey⟩

/-- A provider descriptor `{'id': id, **PROVIDERS[id]}` as returned by
`get_available_providers`. -/
def providerDescriptor (id name description : String) (requires : PyValue) : PyValue :=
  .pdict [("id", .pstr id), ("name", .pstr name),
        ("description", .pstr description), ("requires", requires)]

/-- Descriptor for OpenRouter. -/
def openrouterDescriptor : PyValue :=
  providerDescriptor "openrouter" "OpenRouter (DeepSeek)" "Free: DeepSeek model"
    (.pstr "OPENROUTER_API_KEY")

/-- Descriptor for Google Gemini. -/
def geminiDescriptor : PyValue :=
  providerDescriptor "gemini" "Google Gemini" "Free: 1,500 requests/day"
    (.pstr "GOOGLE_API_KEY")

/-- Descriptor for Groq. -/
def groqDescriptor : PyValue :=
  providerDescriptor "groq" "Groq (Llama 3.1)" "Free: 14,400 requests/day"
    (.pstr "GROQ_API_KEY")

/-- Descriptor for Together AI. -/
def togetherDescriptor : PyValue :=
  providerDescriptor "together" "Together AI" "Free: $1 credit on signup"
    (.pstr "TOGETHER_API_KEY")

/-- Descriptor for Anthropic Claude. -/
def anthropicDescriptor : PyValue :=
  providerDescriptor "anthropic" "Anthropic Claude" "Paid: Pay per token"
    (.pstr "ANTHROPIC_API_KEY")

/-- Descriptor for the mock/demo provider (requires no credential). -/
def mockDescriptor : PyValue :=
  providerDescriptor "mock" "Demo Mode" "No API key required" .pnull

/-- Model of `AIService.get_available_providers`: append each provider whose
API key is configured, in the fixed source order, then always append the
mock descriptor. -/
def getAvailableProviders (config : Config) : List PyValue :=
  (if keyPresent config.openrouterApiKey then [openrouterDescriptor] else []) ++
  (if keyPresent config.googleApiKey then [geminiDescriptor] else []) ++
  (if keyPresent config.groqApiKey then [groqDescriptor] else []) ++
  (if keyPresent config.togetherApiKey then [togetherDescriptor] else []) ++
  (if keyPresent config.anthropicApiKey then [anthropicDescriptor] else []) ++
  [mockDescriptor]

/-- Model of `AIService._build_prompt`: the instruction prompt rendered from
the requirements text and the project type. -/
def buildPrompt (requirements projectType : String) : String :=
  "You are an expert QA engineer. Generate industry-standard test cases based on the following requirements.\n\nProject Type: "
  ++ projectType
  ++ "\n\nRequirements:\n"
  ++ requirements
  ++ "\n\nGenerate comprehensive test cases in JSON format. Each test case should include:\n- Test ID (format: TC_XXX)\n- Module (the feature/component being tested)\n- Test Scenario (description of what is being tested)\n- Preconditions (what must be true before the test)\n- Steps (numbered list of test steps)\n- Test Data (sample data to use)\n- Expected Result (what should happen)\n- Actual Result (leave as empty string)\n- Status (leave as \"Pending\")\n- Priority (High, Medium, or Low)\n- Severity (Critical, Major, Minor, or Trivial)\n- Edge Cases (any edge case considerations)\n\nReturn the response as a valid JSON object with this structure:\n\x7b\n    \"test_cases\": [\n        \x7b\n            \"test_id\": \"TC_001\",\n            \"module\": \"...\",\n            \"test_scenario\": \"...\",\n            \"preconditions\": \"...\",\n            \"steps\": \"1. Step one\\n2. Step two\\n3. Step three\",\n            \"test_data\": \"...\",\n            \"expected_result\": \"...\",\n            \"actual_result\": \"\",\n            \"status\": \"Pending\",\n            \"priority\": \"High|Medium|Low\",\n            \"severity\": \"Critical|Major|Minor|Trivial\",\n            \"edge_cases\": \"...\"\n        \x7d\n    ],\n    \"summary\": \x7b\n        \"total_test_cases\": X,\n        \"high_priority\": X,\n        \"medium_priority\": X,\n        \"low_priority\": X\n    \x7d\n\x7d\n\nGenerate at least 5-10 comprehensive test cases covering positive, negative, and edge cases.\nIMPORTANT: Return ONLY the JSON object, no additional text or markdown formatting."

/-- The external world of the provider SDKs: `call id prompt` performs the
network round trip of `_generate_with_<id>` up to (and excluding) response
parsing, returning the raw response text or a raised exception. -/
structure ProviderEnv : Type where
  call : String → String → Except String String

/-- Model of the `_generate_with_*` helpers: submit the prompt, then parse
the raw response tagged with the provider id.  Exceptions from either step
propagate. -/
def generateWithProvider (env : ProviderEnv) (providerId prompt : String) :
    Except String PyValue := do
  let text ← env.call providerId prompt
  parseResponse text providerId

/-- Resolution of the `provider` argument of `generate_test_cases`:
`if not provider: provider = Config.DEFAULT_AI_PROVIDER` (both `None` and
the empty string are falsy). -/
def resolveProvider (config : Config) (provider : Option String) : String :=
  match provider with
  | none => config.defaultAiProvider
  | some p => if p = "" then config.defaultAiProvider else p

/-- The guard chain inside the `try` block of `generate_test_cases`: invoke
the matching configured provider, or fall through to the mock generator. -/
def providerAttempt (svc : AIService) (env : ProviderEnv)
    (requirements projectType prompt p : String) : Except String PyValue :=
  if p = "openrouter" ∧ keyPresent svc.config.openrouterApiKey = true then
    generateWithProvider env "openrouter" prompt
  else if p = "gemini" ∧ svc.geminiClient = true then
    generateWithProvider env "gemini" prompt
  else if p = "groq" ∧ svc.groqClient = true then
    generateWithProvider env "groq" prompt
  else if p = "together" ∧ keyPresent svc.config.togetherApiKey = true then
    generateWithProvider env "together" prompt
  else if p = "anthropic" ∧ svc.anthropicClient = true then
    generateWithProvider env "anthropic" prompt
  else
    .ok (generateMockTestCases requirements projectType)

/-- The `except Exception` handler of `generate_test_cases`: on success pass
the result through; on any exception, synthesize a mock result and attach
the descriptive error string. -/
def handleAttempt (requirements projectType : String) :
    Except String PyValue → PyValue
  | .ok result => result
  | .error e =>
      .pdict (setKey (mockResultKvs requirements projectType) "error"
        (.pstr ("AI provider error: " ++ e)))

/-- Model of `AIService.generate_test_cases`. -/
def generateTestCases (svc : AIService) (env : ProviderEnv)
    (requirements projectType : String) (provider : Option String) : PyValue :=
  handleAttempt requirements projectType
    (providerAttempt svc env requirements projectType
      (buildPrompt requirements projectType)
      (resolveProvider svc.config provider))

/-! Small accessors used to state the claims. -/

/-- Length of the `test_cases` field of a result object. -/
def testCasesLen (j : PyValue) : Option Nat :=
  match getKey j "test_cases" with
  | some (.plist xs) => some xs.length
  | _ => none

/-- An integer field of the `summary` sub-object of a result object. -/
def summaryField (j : PyValue) (k : String) : Option Int :=
  match getKey j "summary" with
  | some s =>
      match getKey s k with
      | some (.pint n) => some n
      | _ => none
  | _ => none

/-- Number of test cases in a list whose `priority` field equals `p`. -/
def priorityCountOf (cases : List PyValue) (p : String) : Nat :=
  (cases.filter (fun c =>
    match getKey c "priority" with
    | some (.pstr q) => q == p
    | _ => false)).length

/-- Whether a JSON value is an object (a Python dict). -/
def jsonIsObj : PyValue → Bool
  | .pdict _ => true
  | _ => false

/-- Whether an `Except` result is a normal return (no exception raised). -/
def isOkB : Except String PyValue → Bool
  | .ok _ => true
  | .error _ => false

/-- The guard condition under which `generate_test_cases` invokes provider
`p` (for an `AIService` whose configured clients all initialized): the
request names one of the five real providers and its credential is
configured. -/
def credentialPresent (cfg : Config) (p : String) : Bool :=
  if p = "openrouter" then keyPresent cfg.openrouterApiKey
  else if p = "gemini" then keyPresent cfg.googleApiKey
  else if p = "groq" then keyPresent cfg.groqApiKey
  else if p = "together" then keyPresent cfg.togetherApiKey
  else if p = "anthropic" then keyPresent cfg.anthropicApiKey
  else false

/-- No provider credential is configured. -/
def noCredentials (cfg : Config) : Bool :=
  !keyPresent cfg.openrouterApiKey && !keyPresent cfg.googleApiKey &&
  !keyPresent cfg.groqApiKey && !keyPresent cfg.togetherApiKey &&
  !keyPresent cfg.anthropicApiKey

/-- A text wrapped in a single pair of triple-backtick fences, with or
without the "json" language tag. -/
def wrapFence (tag : Bool) (text : String) : String :=
  (if tag then "```json\n" else "```\n") ++ text ++ "\n```"

/-- A configuration with only the Gemini credential set. -/
def cfgGeminiOnly : Config := ⟨"", "gkey", "", "", "", "openrouter"⟩

/-- A configuration with no credential set (every key defaults to the empty
string). -/
def cfgEmpty : Config := ⟨"", "", "", "", "", "openrouter"⟩

/-- A provider environment whose network call always raises. -/
def envRaising : ProviderEnv := ⟨fun _ _ => .error "boom"⟩

/-- A provider environment answering with valid JSON whose summary
miscomputes `total_test_cases` (7) against an empty `test_cases` list. -/
def envBadSummary : ProviderEnv :=
  ⟨fun _ _ => .ok "\x7b\"test_cases\": [], \"summary\": \x7b\"total_test_cases\": 7, \"high_priority\": 7, \"medium_priority\": 0, \"low_priority\": 0\x7d\x7d"⟩

/-! Supporting lemmas about the Python string helpers. -/

/-- The head of a `dropWhile` result fails the predicate. -/
theorem dropWhile_head_false {p : Char → Bool} {l : List Char} {c : Char}
    {t : List Char} (hm : List.dropWhile p l = c :: t) : p c = false := by
  have h := List.head?_dropWhile_not p l
  rw [hm] at h
  exact h

/-- Right-trimming a list whose head survives left-trimming leaves that head
in place, so a further left trim is the identity. -/
theorem dropWhile_rt (c : Char) (t : List Char) (hc : pyWs c = false) :
    List.dropWhile pyWs ((List.dropWhile pyWs (c :: t).reverse).reverse)
      = (List.dropWhile pyWs (c :: t).reverse).reverse := by
  rw [List.reverse_cons, List.dropWhile_append]
  by_cases he : (List.dropWhile pyWs t.reverse).isEmpty = true
  · rw [if_pos he]
    simp [List.dropWhile_cons, hc]
  · rw [if_neg he, List.reverse_append]
    simp [List.dropWhile_cons, hc]

/-- Python `strip` is idempotent (list level). -/
theorem trimChars_idem (cs : List Char) :
    trimChars (trimChars cs) = trimChars cs := by
  unfold trimChars
  cases hm : List.dropWhile pyWs cs with
  | nil => simp
  | cons c t =>
      have hc : pyWs c = false := dropWhile_head_false hm
      rw [dropWhile_rt c t hc, List.reverse_reverse, List.dropWhile_idempotent]

/-- Python `strip` is idempotent. -/
theorem pyStrip_idem (s : String) : pyStrip (pyStrip s) = pyStrip s := by
  unfold pyStrip
  exact congrArg String.mk (trimChars_idem s.data)

/-- A leading whitespace character does not change the trim. -/
theorem trimChars_cons_ws {c : Char} (h : pyWs c = true) (cs : List Char) :
    trimChars (c :: cs) = trimChars cs := by
  unfold trimChars
  rw [List.dropWhile_cons, if_pos h]

/-- A trailing whitespace character does not change the trim. -/
theorem trimChars_concat_ws {b : Char} (h : pyWs b = true) (cs : List Char) :
    trimChars (cs ++ [b]) = trimChars cs := by
  unfold trimChars
  rw [List.dropWhile_append]
  by_cases he : (List.dropWhile pyWs cs).isEmpty = true
  · rw [if_pos he]
    have h0 : List.dropWhile pyWs cs = [] := List.isEmpty_iff.mp he
    simp [List.dropWhile_cons, h, h0]
  · rw [if_neg he, List.reverse_append]
    simp [List.dropWhile_cons, h]

/-- The trim of a value sandwiched between two newlines. -/
theorem trimChars_newline_sandwich (cs : List Char) :
    trimChars ('\n' :: (cs ++ ['\n'])) = trimChars cs := by
  rw [trimChars_cons_ws (by decide) (cs ++ ['\n']),
      trimChars_concat_ws (by decide) cs]

/-- `mockModuleName` as a `head?` default. -/
theorem mockModuleName_eq_headD (req : String) :
    mockModuleName req = ((pySplit req).head?).getD "Feature" := by
  unfold mockModuleName
  cases hps : pySplit req with
  | nil => rfl
  | cons w t => rw [List.take_succ_cons]; rfl

/-! Claim theorems. -/

/-- C5: the mock generator is a pure total function of
`(requirements, project_type)` returning exactly 5 test cases whose module
names derive from the first word of requirements ("Feature" when there is no
word), with provider "mock", the hardcoded summary
`{total:5, high:3, medium:2, low:0}`, those counts agreeing with the
priority fields actually present on the 5 template cases; and for
requirements "Login should allow valid users and block invalid ones" with
project type "Web" the first case's module is derived from "Login". -/
theorem mock_generator_spec (req pt : String) :
    (mockTestCases req pt).length = 5
    ∧ getKey (generateMockTestCases req pt) "provider" = some (.pstr "mock")
    ∧ summaryField (generateMockTestCases req pt) "total_test_cases" = some 5
    ∧ summaryField (generateMockTestCases req pt) "high_priority" = some 3
    ∧ summaryField (generateMockTestCases req pt) "medium_priority" = some 2
    ∧ summaryField (generateMockTestCases req pt) "low_priority" = some 0
    ∧ priorityCountOf (mockTestCases req pt) "High" = 3
    ∧ priorityCountOf (mockTestCases req pt) "Medium" = 2
    ∧ priorityCountOf (mockTestCases req pt) "Low" = 0
    ∧ ((mockTestCases req pt).head?.bind (fun c => getKey c "module"))
        = some (.pstr (mockModuleName req ++ " - Core Functionality"))
    ∧ (pySplit req = [] → mockModuleName req = "Feature")
    ∧ ((mockTestCases "Login should allow valid users and block invalid ones"
          "Web").head?.bind (fun c => getKey c "module"))
        = some (.pstr "Login - Core Functionality") := by
  refine ⟨rfl, rfl, rfl, rfl, rfl, rfl, rfl, rfl, rfl, rfl, ?_, rfl⟩
  intro h
  rw [mockModuleName_eq_headD, h]
  rfl

/-- C5 witness: the module-name placeholder hypothesis discharged at the
empty requirements string. -/
theorem mock_generator_spec_witness : mockModuleName "" = "Feature" :=
  (mock_generator_spec "" "Web").2.2.2.2.2.2.2.2.2.2.1 rfl

/-- C10: the mock generator's output depends only on the first
whitespace-delimited word of the requirements (and the project type): two
requirements with the same first word (or both without words) yield
identical results. -/
theorem mock_depends_only_on_first_word (r1 r2 pt : String)
    (h : (pySplit r1).head? = (pySplit r2).head?) :
    generateMockTestCases r1 pt = generateMockTestCases r2 pt := by
  have hm : mockModuleName r1 = mockModuleName r2 := by
    rw [mockModuleName_eq_headD, mockModuleName_eq_headD, h]
  unfold generateMockTestCases mockResultKvs mockTestCases
  rw [hm]

/-- C10 witness: two requirements sharing the first word "Login". -/
theorem mock_depends_only_on_first_word_witness :
    generateMockTestCases "Login now please" "Web"
      = generateMockTestCases "Login later  today" "Web" :=
  mock_depends_only_on_first_word "Login now please" "Login later  today"
    "Web" rfl

/-- C1: if the invoked provider's call (prompt submission, response
retrieval, or parsing) raises any exception, `generate_test_cases` catches
it and returns the mock generator's result with a descriptive `error` field
attached; the caller receives this well-formed dictionary, never a
propagated exception. -/
theorem generate_catches_provider_errors (svc : AIService) (env : ProviderEnv)
    (req pt : String) (provider : Option String) (e : String)
    (h : providerAttempt svc env req pt (buildPrompt req pt)
          (resolveProvider svc.config provider) = .error e) :
    generateTestCases svc env req pt provider
      = .pdict (setKey (mockResultKvs req pt) "error"
          (.pstr ("AI provider error: " ++ e)))
    ∧ getKey (generateTestCases svc env req pt provider) "error"
      = some (.pstr ("AI provider error: " ++ e)) := by
  have hg : generateTestCases svc env req pt provider
      = .pdict (setKey (mockResultKvs req pt) "error"
          (.pstr ("AI provider error: " ++ e))) := by
    unfold generateTestCases
    rw [h]
    rfl
  exact ⟨hg, by rw [hg]; rfl⟩

/-- C1 witness: a configured Gemini provider whose network call raises
"boom". -/
theorem generate_catches_provider_errors_witness :
    getKey (generateTestCases (mkAIService cfgGeminiOnly) envRaising "Login"
      "Web" (some "gemini")) "error"
      = some (.pstr "AI provider error: boom") :=
  (generate_catches_provider_errors (mkAIService cfgGeminiOnly) envRaising
    "Login" "Web" (some "gemini") "boom" rfl).2

/-- C2 counterexample: the summary invariant is not enforced at the
orchestrator boundary.  With Gemini configured and a provider response whose
JSON reports `total_test_cases: 7` over an empty `test_cases` list,
`generate_test_cases` returns that summary untouched: the total is 7 while
the test-case list has length 0. -/
theorem summary_not_validated_counterexample :
    summaryField (generateTestCases (mkAIService cfgGeminiOnly) envBadSummary
        "Login" "Web" (some "gemini")) "total_test_cases" = some 7
    ∧ testCasesLen (generateTestCases (mkAIService cfgGeminiOnly) envBadSummary
        "Login" "Web" (some "gemini")) = some 0
    ∧ (7 : Int) ≠ ((0 : Nat) : Int) :=
  ⟨rfl, rfl, by decide⟩

/-- C2 amended: the invariant `summary.total_test_cases = len(test_cases)`
(with priority buckets 3 + 2 + 0 summing to the total) holds for every
mock-generated result — both the direct mock path and the error-fallback
path that attaches an `error` field — but provider-parsed JSON is passed
through without any enforcement or validation of its summary. -/
theorem mock_summary_invariant (req pt e : String) :
    summaryField (generateMockTestCases req pt) "total_test_cases" = some 5
    ∧ testCasesLen (generateMockTestCases req pt) = some 5
    ∧ summaryField (generateMockTestCases req pt) "high_priority" = some 3
    ∧ summaryField (generateMockTestCases req pt) "medium_priority" = some 2
    ∧ summaryField (generateMockTestCases req pt) "low_priority" = some 0
    ∧ summaryField (handleAttempt req pt (.error e)) "total_test_cases" = some 5
    ∧ testCasesLen (handleAttempt req pt (.error e)) = some 5
    ∧ summaryField (handleAttempt req pt (.error e)) "high_priority" = some 3
    ∧ summaryField (handleAttempt req pt (.error e)) "medium_priority" = some 2
    ∧ summaryField (handleAttempt req pt (.error e)) "low_priority" = some 0 :=
  ⟨rfl, rfl, rfl, rfl, rfl, rfl, rfl, rfl, rfl, rfl⟩

/-- C3 counterexample: `_parse_response` can raise.  On the response text
"[1, 2]" — valid JSON that is not an object — `json.loads` succeeds with a
list and the assignment `result['provider'] = provider` raises a
`TypeError`, which the parser's `except json.JSONDecodeError` clauses do not
catch. -/
theorem parse_response_raises_counterexample :
    parseResponse "[1, 2]" "gemini"
      = .error "list indices must be integers or slices, not str" := rfl

/-- C3 amended: `_parse_response` raises if and only if the JSON value it
recovers (directly from the cleaned text, or from the brace region of the
raw text) is not a JSON object; on every other input — including all parse
failures — it returns a dictionary. -/
theorem parse_response_raises_iff_nonobject (raw p : String) :
    isOkB (parseResponse raw p) = false
      ↔ ∃ j, recoveredJson raw = some j ∧ jsonIsObj j = false := by
  unfold parseResponse recoveredJson
  cases h1 : loads (cleanedOf raw) with
  | some j => cases j <;> simp [attachProvider, isOkB, jsonIsObj]
  | none =>
      cases h2 : braceRegion raw with
      | none => simp [isOkB]
      | some sub =>
          cases h3 : loads sub with
          | none => simp [isOkB, h3]
          | some j =>
              cases j <;> simp [attachProvider, isOkB, jsonIsObj, h3]

/-- C6: when the cleaned response is not valid JSON and the raw text
contains no balanced brace region, the parser returns the degraded result:
empty `test_cases`, the non-empty error string "Failed to parse AI
response", the provider id, and the first 500 characters of the raw
response (hence at most 500 characters). -/
theorem unparseable_response_degraded (raw p : String)
    (h1 : loads (cleanedOf raw) = none) (h2 : braceRegion raw = none) :
    parseResponse raw p = .ok (errorResult p raw)
    ∧ getKey (errorResult p raw) "test_cases" = some (.plist [])
    ∧ getKey (errorResult p raw) "error"
        = some (.pstr "Failed to parse AI response")
    ∧ "Failed to parse AI response" ≠ ""
    ∧ getKey (errorResult p raw) "provider" = some (.pstr p)
    ∧ getKey (errorResult p raw) "raw_response" = some (.pstr (takeL raw 500))
    ∧ (takeL raw 500).length ≤ 500 := by
  refine ⟨?_, rfl, rfl, by decide, rfl, rfl, ?_⟩
  · unfold parseResponse
    rw [h1, h2]
  · show (String.mk (raw.data.take 500)).length ≤ 500
    exact List.length_take_le 500 raw.data

/-- C6 witness: a plain-prose response with no braces. -/
theorem unparseable_response_degraded_witness :
    parseResponse "no json here at all" "groq"
      = .ok (errorResult "groq" "no json here at all") :=
  (unparseable_response_degraded "no json here at all" "groq" rfl rfl).1

/-- C8: a valid JSON object embedded inside extra prose (so that the direct
parse of the cleaned text fails) is recovered through the fallback that
parses the substring from the first `'{'` to the last `'}'` of the raw
text, and is returned with the provider id attached. -/
theorem brace_fallback_recovers (raw sub p : String)
    (kvs : List (String × PyValue))
    (h1 : loads (cleanedOf raw) = none)
    (h2 : braceRegion raw = some sub)
    (h3 : loads sub = some (.pdict kvs)) :
    parseResponse raw p = .ok (.pdict (setKey kvs "provider" (.pstr p))) := by
  unfold parseResponse
  rw [h1, h2]
  show (match loads sub with
        | some result => attachProvider result p
        | none => Except.ok (errorResult p raw)) = _
  rw [h3]
  rfl

/-- C8 witness: a JSON object surrounded by prose. -/
theorem brace_fallback_recovers_witness :
    parseResponse "Here you go: \x7b\"test_cases\": []\x7d thanks" "together"
      = .ok (.pdict [("test_cases", .plist []), ("provider", .pstr "together")]) :=
  brace_fallback_recovers "Here you go: \x7b\"test_cases\": []\x7d thanks"
    "\x7b\"test_cases\": []\x7d" "together" [("test_cases", .plist [])]
    rfl rfl rfl

/-- C4: when the requested provider's credential is present that provider is
invoked; otherwise `generate_test_cases` falls through silently to the mock
generator without raising or surfacing an error; in particular, with no
credentials configured, `generate(req, type, None)` resolves to the
configured default and returns a result whose provider is "mock" with
exactly 5 test cases, and requesting "gemini" without a Gemini credential
yields provider "mock". -/
theorem provider_resolution (cfg : Config) (env : ProviderEnv)
    (req pt : String) :
    (∀ p : String, p ≠ "" → credentialPresent cfg p = true →
      generateTestCases (mkAIService cfg) env req pt (some p)
        = handleAttempt req pt (generateWithProvider env p (buildPrompt req pt)))
    ∧ (∀ p : String, p ≠ "" → credentialPresent cfg p = false →
      generateTestCases (mkAIService cfg) env req pt (some p)
        = generateMockTestCases req pt)
    ∧ (noCredentials cfg = true →
      getKey (generateTestCases (mkAIService cfg) env req pt none) "provider"
          = some (.pstr "mock")
      ∧ testCasesLen (generateTestCases (mkAIService cfg) env req pt none)
          = some 5
      ∧ getKey (generateTestCases (mkAIService cfg) env req pt (some "gemini"))
          "provider" = some (.pstr "mock")) := by
  have hres : ∀ p : String, p ≠ "" →
      resolveProvider (mkAIService cfg).config (some p) = p := by
    intro p hne
    simp [resolveProvider, mkAIService, hne]
  refine ⟨?_, ?_, ?_⟩
  · intro p hne hcred
    unfold generateTestCases
    rw [hres p hne]
    unfold credentialPresent at hcred
    split_ifs at hcred with h1 h2 h3 h4 h5
    · subst h1; simp [providerAttempt, mkAIService, hcred]
    · subst h2; simp [providerAttempt, mkAIService, hcred]
    · subst h3; simp [providerAttempt, mkAIService, hcred]
    · subst h4; simp [providerAttempt, mkAIService, hcred]
    · subst h5; simp [providerAttempt, mkAIService, hcred]
  · intro p hne hcred
    unfold generateTestCases
    rw [hres p hne]
    unfold credentialPresent at hcred
    split_ifs at hcred with h1 h2 h3 h4 h5
    · subst h1; simp [providerAttempt, mkAIService, hcred, handleAttempt]
    · subst h2; simp [providerAttempt, mkAIService, hcred, handleAttempt]
    · subst h3; simp [providerAttempt, mkAIService, hcred, handleAttempt]
    · subst h4; simp [providerAttempt, mkAIService, hcred, handleAttempt]
    · subst h5; simp [providerAttempt, mkAIService, hcred, handleAttempt]
    · simp [providerAttempt, mkAIService, h1, h2, h3, h4, h5, handleAttempt]
  · intro hnc
    have h1 : keyPresent cfg.openrouterApiKey = false := by
      revert hnc; unfold noCredentials; cases keyPresent cfg.openrouterApiKey <;> simp
    have h2 : keyPresent cfg.googleApiKey = false := by
      revert hnc; unfold noCredentials; cases keyPresent cfg.googleApiKey <;> simp
    have h3 : keyPresent cfg.groqApiKey = false := by
      revert hnc; unfold noCredentials; cases keyPresent cfg.groqApiKey <;> simp
    have h4 : keyPresent cfg.togetherApiKey = false := by
      revert hnc; unfold noCredentials; cases keyPresent cfg.togetherApiKey <;> simp
    have h5 : keyPresent cfg.anthropicApiKey = false := by
      revert hnc; unfold noCredentials; cases keyPresent cfg.anthropicApiKey <;> simp
    have hmock : ∀ q : String,
        providerAttempt (mkAIService cfg) env req pt (buildPrompt req pt) q
          = .ok (generateMockTestCases req pt) := by
      intro q
      unfold providerAttempt
      simp [mkAIService, h1, h2, h3, h4, h5]
    constructor
    · unfold generateTestCases
      rw [hmock]
      rfl
    constructor
    · unfold generateTestCases
      rw [hmock]
      rfl
    · unfold generateTestCases
      rw [hmock]
      rfl

/-- C4 witness: with only Gemini configured, requesting "gemini" invokes the
provider path, requesting "groq" falls back to mock; with nothing
configured, the default resolution returns the mock result. -/
theorem provider_resolution_witness :
    generateTestCases (mkAIService cfgGeminiOnly) envRaising "Login" "Web"
        (some "groq") = generateMockTestCases "Login" "Web"
    ∧ getKey (generateTestCases (mkAIService cfgEmpty) envRaising "Login"
        "Web" none) "provider" = some (.pstr "mock") :=
  ⟨(provider_resolution cfgGeminiOnly envRaising "Login" "Web").2.1 "groq"
      (by decide) rfl,
   ((provider_resolution cfgEmpty envRaising "Login" "Web").2.2 rfl).1⟩

/-- Prepending an optional element keeps a sublist of the master order. -/
theorem sublist_if_cons (b : Bool) (x : PyValue) {l1 l2 : List PyValue}
    (h : l1.Sublist l2) :
    ((if b = true then [x] else []) ++ l1).Sublist (x :: l2) := by
  cases b
  · simpa using h.cons x
  · simpa using h.cons₂ x

/-- C9: `get_available_providers` returns the configured providers in the
fixed priority order openrouter, gemini, groq, together, anthropic — each
present exactly when its credential is configured — always followed by the
mock descriptor last; it never errors, and with no credentials it returns
the one-element list holding only the mock descriptor. -/
theorem available_providers_spec (cfg : Config) :
    (getAvailableProviders cfg).getLast? = some mockDescriptor
    ∧ (getAvailableProviders cfg).Sublist
        [openrouterDescriptor, geminiDescriptor, groqDescriptor,
         togetherDescriptor, anthropicDescriptor, mockDescriptor]
    ∧ (openrouterDescriptor ∈ getAvailableProviders cfg
        ↔ keyPresent cfg.openrouterApiKey = true)
    ∧ (geminiDescriptor ∈ getAvailableProviders cfg
        ↔ keyPresent cfg.googleApiKey = true)
    ∧ (groqDescriptor ∈ getAvailableProviders cfg
        ↔ keyPresent cfg.groqApiKey = true)
    ∧ (togetherDescriptor ∈ getAvailableProviders cfg
        ↔ keyPresent cfg.togetherApiKey = true)
    ∧ (anthropicDescriptor ∈ getAvailableProviders cfg
        ↔ keyPresent cfg.anthropicApiKey = true)
    ∧ mockDescriptor ∈ getAvailableProviders cfg
    ∧ (noCredentials cfg = true → getAvailableProviders cfg = [mockDescriptor]) := by
  refine ⟨?_, ?_, ?_⟩
  · unfold getAvailableProviders
    simp only [List.append_assoc]
    rw [List.getLast?_append, List.getLast?_append,
        List.getLast?_append, List.getLast?_append, List.getLast?_append]
    rfl
  · unfold getAvailableProviders
    simp only [List.append_assoc]
    exact sublist_if_cons _ _ (sublist_if_cons _ _ (sublist_if_cons _ _
      (sublist_if_cons _ _ (sublist_if_cons _ _ (List.Sublist.refl _)))))
  · cases h1 : keyPresent cfg.openrouterApiKey <;>
    cases h2 : keyPresent cfg.googleApiKey <;>
    cases h3 : keyPresent cfg.groqApiKey <;>
    cases h4 : keyPresent cfg.togetherApiKey <;>
    cases h5 : keyPresent cfg.anthropicApiKey <;>
    simp [getAvailableProviders, noCredentials, h1, h2, h3, h4, h5,
      openrouterDescriptor, geminiDescriptor, groqDescriptor,
      togetherDescriptor, anthropicDescriptor, mockDescriptor,
      providerDescriptor]

/-- C9 witness: the unconfigured environment yields exactly the mock
descriptor. -/
theorem available_providers_spec_witness :
    getAvailableProviders cfgEmpty = [mockDescriptor] :=
  (available_providers_spec cfgEmpty).2.2.2.2.2.2.2.2 rfl

/-- Appending on the right commutes with the search for the first `'{'`. -/
theorem dropToOpen_append (l post : List Char) :
    dropToOpen (l ++ post)
      = match dropToOpen l with
        | some sfx => some (sfx ++ post)
        | none => dropToOpen post := by
  induction l with
  | nil => rfl
  | cons c t ih =>
      by_cases h : (c == '{') = true
      · simp [dropToOpen, h]
      · simp only [List.cons_append, dropToOpen, h, Bool.false_eq_true,
          if_false]
        exact ih

/-- Appending on the right commutes with the search for the first `'}'`. -/
theorem dropToClose_append (l post : List Char) :
    dropToClose (l ++ post)
      = match dropToClose l with
        | some sfx => some (sfx ++ post)
        | none => dropToClose post := by
  induction l with
  | nil => rfl
  | cons c t ih =>
      by_cases h : (c == '}') = true
      · simp [dropToClose, h]
      · simp only [List.cons_append, dropToClose, h, Bool.false_eq_true,
          if_false]
        exact ih

/-- Wrapping a raw text in markdown fences does not change its brace
region: the fences contribute no brace characters. -/
theorem braceRegion_wrapFence (tag : Bool) (text : String) :
    braceRegion (wrapFence tag text) = braceRegion text := by
  have hdata : dropToOpen (wrapFence tag text).data
      = dropToOpen (text.data ++ ['\n', '`', '`', '`']) := by
    cases tag <;> rfl
  unfold braceRegion
  rw [hdata, dropToOpen_append]
  cases ho : dropToOpen text.data with
  | none => rfl
  | some sfx =>
      show (match dropToClose (sfx ++ ['\n', '`', '`', '`']).reverse with
            | none => none
            | some revRegion => some (String.mk revRegion.reverse))
          = (match dropToClose sfx.reverse with
            | none => none
            | some revRegion => some (String.mk revRegion.reverse))
      rw [show (sfx ++ ['\n', '`', '`', '`']).reverse
            = '`' :: '`' :: '`' :: '\n' :: sfx.reverse by simp]
      rfl

/-- A list with non-whitespace first and last characters is unchanged by
the whitespace trim. -/
theorem trimChars_eq_self_of_ends (c d : Char) (hc : pyWs c = false)
    (hd : pyWs d = false) (mid : List Char) :
    trimChars (c :: (mid ++ [d])) = c :: (mid ++ [d]) := by
  unfold trimChars
  rw [List.dropWhile_cons, hc]
  simp only [Bool.false_eq_true, if_false]
  rw [show (c :: (mid ++ [d])).reverse = d :: (mid.reverse ++ [c]) by simp]
  rw [List.dropWhile_cons, hd]
  simp only [Bool.false_eq_true, if_false]
  simp

/-- The triple-backtick suffix test succeeds on any list ending in three
backticks. -/
theorem isSuffixOf_fence (l : List Char) :
    List.isSuffixOf ['`', '`', '`'] (l ++ ['`', '`', '`']) = true := by
  show List.isPrefixOf (['`', '`', '`'].reverse) (l ++ ['`', '`', '`']).reverse
      = true
  rw [List.isPrefixOf_iff_prefix]
  refine ⟨l.reverse, ?_⟩
  simp

/-- Dropping the last three characters of a list ending in three backticks
recovers the list. -/
theorem take_drop_fence (l : List Char) :
    (l ++ ['`', '`', '`']).take ((l ++ ['`', '`', '`']).length - 3) = l := by
  have hlen : (l ++ ['`', '`', '`']).length - 3 = l.length := by
    simp
  rw [hlen, List.take_append_eq_append_take, List.take_of_length_le
    (Nat.le_refl _), Nat.sub_self]
  simp

/-- The data of an unlabelled fenced text in head-tail normal form. -/
theorem wrapFence_false_data (text : String) :
    (wrapFence false text).data
      = '`' :: (('`' :: '`' :: '\n' :: (text.data ++ ['\n', '`', '`'])) ++ ['`']) := by
  show '`' :: '`' :: '`' :: '\n' :: (text.data ++ ['\n', '`', '`', '`'])
      = '`' :: (('`' :: '`' :: '\n' :: (text.data ++ ['\n', '`', '`'])) ++ ['`'])
  simp

/-- The data of a "json"-labelled fenced text in head-tail normal form. -/
theorem wrapFence_true_data (text : String) :
    (wrapFence true text).data
      = '`' :: (('`' :: '`' :: 'j' :: 's' :: 'o' :: 'n' :: '\n'
          :: (text.data ++ ['\n', '`', '`'])) ++ ['`']) := by
  show '`' :: '`' :: '`' :: 'j' :: 's' :: 'o' :: 'n' :: '\n'
        :: (text.data ++ ['\n', '`', '`', '`'])
      = '`' :: (('`' :: '`' :: 'j' :: 's' :: 'o' :: 'n' :: '\n'
          :: (text.data ++ ['\n', '`', '`'])) ++ ['`'])
  simp

/-- A fenced text starts and ends with backticks, so the outer strip leaves
it unchanged. -/
theorem pyStrip_wrapFence (tag : Bool) (text : String) :
    pyStrip (wrapFence tag text) = wrapFence tag text := by
  cases tag
  · show String.mk (trimChars (wrapFence false text).data) = _
    rw [wrapFence_false_data, trimChars_eq_self_of_ends '`' '`'
        (by decide) (by decide), ← wrapFence_false_data]
  · show String.mk (trimChars (wrapFence true text).data) = _
    rw [wrapFence_true_data, trimChars_eq_self_of_ends '`' '`'
        (by decide) (by decide), ← wrapFence_true_data]

/-- The whole fence-stripping pipeline on a fenced text yields exactly the
stripped inner text. -/
theorem cleanedOf_wrapFence (tag : Bool) (text : String) :
    cleanedOf (wrapFence tag text) = pyStrip text := by
  have s3 : stripFenceEnd (String.mk (('\n' :: (text.data ++ ['\n']))
        ++ ['`', '`', '`'])) = String.mk ('\n' :: (text.data ++ ['\n'])) := by
    unfold stripFenceEnd
    rw [show endsL (String.mk (('\n' :: (text.data ++ ['\n']))
          ++ ['`', '`', '`'])) "```" = true from isSuffixOf_fence _]
    rw [if_pos rfl]
    exact congrArg String.mk (take_drop_fence _)
  have s4 : pyStrip (String.mk ('\n' :: (text.data ++ ['\n'])))
      = pyStrip text :=
    congrArg String.mk (trimChars_newline_sandwich text.data)
  unfold cleanedOf
  rw [pyStrip_wrapFence]
  cases tag
  · have s1 : stripFenceJson (wrapFence false text) = wrapFence false text := by
      unfold stripFenceJson
      rw [show startsL (wrapFence false text) "```json" = false from rfl]
      simp
    have s2 : stripFence3 (wrapFence false text)
        = String.mk (('\n' :: (text.data ++ ['\n'])) ++ ['`', '`', '`']) := by
      unfold stripFence3
      rw [show startsL (wrapFence false text) "```" = true from rfl, if_pos rfl]
      show String.mk ('\n' :: (text.data ++ ['\n', '`', '`', '`'])) = _
      simp
    rw [s1, s2, s3]
    exact s4
  · have s1 : stripFenceJson (wrapFence true text)
        = String.mk ('\n' :: (text.data ++ ['\n', '`', '`', '`'])) := by
      unfold stripFenceJson
      rw [show startsL (wrapFence true text) "```json" = true from rfl,
          if_pos rfl]
      rfl
    have s2 : stripFence3 (String.mk ('\n' :: (text.data ++ ['\n', '`', '`', '`'])))
        = String.mk (('\n' :: (text.data ++ ['\n'])) ++ ['`', '`', '`']) := by
      unfold stripFence3
      rw [show startsL (String.mk ('\n' :: (text.data ++ ['\n', '`', '`', '`'])))
            "```" = false from rfl]
      show String.mk ('\n' :: (text.data ++ ['\n', '`', '`', '`'])) = _
      simp
    rw [s1, s2, s3]
    exact s4

/-- The prefix test for a labelled fence implies the one for a bare fence. -/
theorem startsL_fence_mono (s : String) (h : startsL s "```json" = true) :
    startsL s "```" = true := by
  unfold startsL at h ⊢
  rw [List.isPrefixOf_iff_prefix] at h ⊢
  exact List.IsPrefix.trans ⟨['j', 's', 'o', 'n'], rfl⟩ h

/-- On a text that is not itself fenced, the pipeline is just the strip. -/
theorem cleanedOf_unfenced (text : String)
    (h1 : startsL (pyStrip text) "```" = false)
    (h2 : endsL (pyStrip text) "```" = false) :
    cleanedOf text = pyStrip text := by
  have hj : startsL (pyStrip text) "```json" = false := by
    cases hq : startsL (pyStrip text) "```json"
    · rfl
    · have := startsL_fence_mono _ hq
      rw [h1] at this
      exact absurd this (by decide)
  unfold cleanedOf stripFenceJson stripFence3 stripFenceEnd
  simp only [hj, h1, h2, Bool.false_eq_true, if_false]
  exact pyStrip_idem text

/-- C7: a raw response formed by wrapping a (not itself fenced) text in a
single pair of triple-backtick fences — with or without the "json" language
tag — parses to the same object as the unfenced text whenever the parser
recovers a JSON value from the latter: exactly one leading and one trailing
fence are stripped before parsing, and the brace-region fallback is
unaffected by the fences. -/
theorem fence_stripping_preserves_parse (text p : String) (tag : Bool)
    (h1 : startsL (pyStrip text) "```" = false)
    (h2 : endsL (pyStrip text) "```" = false)
    (h3 : (recoveredJson text).isSome = true) :
    parseResponse (wrapFence tag text) p = parseResponse text p := by
  have hc1 : cleanedOf (wrapFence tag text) = pyStrip text :=
    cleanedOf_wrapFence tag text
  have hc2 : cleanedOf text = pyStrip text := cleanedOf_unfenced text h1 h2
  have hbr : braceRegion (wrapFence tag text) = braceRegion text :=
    braceRegion_wrapFence tag text
  unfold recoveredJson at h3
  rw [hc2] at h3
  unfold parseResponse
  rw [hc1, hc2, hbr]
  cases hl : loads (pyStrip text) with
  | some j => rfl
  | none =>
      rw [hl] at h3
      cases hb : braceRegion text with
      | none => rw [hb] at h3; simp at h3
      | some sub =>
          rw [hb] at h3
          cases hls : loads sub with
          | none => simp [hls] at h3
          | some j =>
              show (match loads sub with
                    | some result => attachProvider result p
                    | none => Except.ok (errorResult p (wrapFence tag text)))
                  = (match loads sub with
                    | some result => attachProvider result p
                    | none => Except.ok (errorResult p text))
              rw [hls]

/-- C7 witness: a fenced JSON object parses identically to the bare text. -/
theorem fence_stripping_preserves_parse_witness :
    parseResponse (wrapFence true "\x7b\"a\": 1\x7d") "groq"
      = parseResponse "\x7b\"a\": 1\x7d" "groq" :=
  fence_stripping_preserves_parse "\x7b\"a\": 1\x7d" "groq" true rfl rfl rfl

end SmartQA
